import Mathlib

set_option linter.unusedVariables false
set_option maxRecDepth 4000

/-!
Shallow embedding of `cpu.py` (an LS-8 style CPU simulator) and proofs about
its instruction semantics.

Registers and memory are Python lists of unbounded integers; indexing follows
Python semantics (a negative index within `-len .. -1` counts from the back,
anything else out of range raises `IndexError`).  A raised exception is
modelled by `Except CpuErr`.
-/

namespace LS8

/-- Python list read `l[i]`: a nonnegative index reads from the front, a
negative index within `-len .. -1` reads from the back, anything else fails
(`IndexError`). -/
def pyGet (l : List Int) (i : Int) : Option Int :=
  if 0 ≤ i then l.get? i.toNat
  else if 0 ≤ i + l.length then l.get? (i + l.length).toNat
  else none

/-- Python list write `l[i] = v`, with the same index rules as `pyGet`. -/
def pySet (l : List Int) (i : Int) (v : Int) : Option (List Int) :=
  if 0 ≤ i then
    if i < l.length then some (l.set i.toNat v) else none
  else if 0 ≤ i + l.length then some (l.set (i + l.length).toNat v)
  else none

/-- Architectural state of the CPU: the 8-entry register file, the 256-byte
memory, the program counter and the flags register (`self.register`,
`self.memory`, `self.pc`, `self.fl` in the source). -/
structure CPUState where
  register : List Int
  memory : List Int
  pc : Int
  fl : Int
deriving DecidableEq, Repr

/-- Errors a step can raise: a Python `IndexError` from list indexing, or the
explicit `Exception("Unsupported ALU operation")`. -/
inductive CpuErr where
  | indexErr : CpuErr
  | unsupportedALU : CpuErr
deriving DecidableEq, Repr

/-- Result of one iteration of the fetch-decode-execute loop: the new state,
the lines printed during the step, and whether the step halted the machine. -/
structure StepOut where
  state : CPUState
  out : List String
  halted : Bool
deriving DecidableEq, Repr

/-- Sequencing of a fallible Python list access: propagate `IndexError`,
otherwise continue. -/
def tryO {α β : Type} (o : Option α) (k : α → Except CpuErr β) : Except CpuErr β :=
  match o with
  | none => Except.error CpuErr.indexErr
  | some a => k a

theorem tryO_some {α β : Type} (a : α) (k : α → Except CpuErr β) :
    tryO (some a) k = k a := rfl

/-- Opcode constant `POP = 0b01000110`. -/
def POP : Int := 0b01000110
/-- Opcode constant `PUSH = 0b01000101`. -/
def PUSH : Int := 0b01000101
/-- Opcode constant `CALL = 0b01010000`. -/
def CALL : Int := 0b01010000
/-- Opcode constant `RET = 0b00010001`. -/
def RET : Int := 0b00010001
/-- Opcode constant `JMP = 0b01010100`. -/
def JMP : Int := 0b01010100
/-- Opcode constant `JNE = 0b01010110`. -/
def JNE : Int := 0b01010110
/-- Opcode constant `JEQ = 0b01010101`. -/
def JEQ : Int := 0b01010101
/-- Opcode constant `ADD = 0b10100000`. -/
def ADD : Int := 0b10100000
/-- Opcode constant `MUL = 0b10100010`. -/
def MUL : Int := 0b10100010
/-- Opcode constant `CMP = 0b10100111`. -/
def CMP : Int := 0b10100111
/-- Opcode constant `HLT = 0b00000001`. -/
def HLT : Int := 0b00000001
/-- Opcode constant `LDI = 0b10000010`. -/
def LDI : Int := 0b10000010
/-- Opcode constant `PRN = 0b01000111`. -/
def PRN : Int := 0b01000111

/-- `self.sp = 7`: the index of the stack-pointer register. -/
def sp : Int := 7

/-- `__init__`: 8 zero registers with register 7 set to `0xf4`, 256 bytes of
zeroed memory, `pc = 0`, `fl = 0`. -/
def initState : CPUState :=
  { register := (List.replicate 8 0).set 7 0xf4
    memory := List.replicate 256 0
    pc := 0
    fl := 0 }

/-- `CPU.alu`: the arithmetic-logic unit, dispatching on the operation tag
string.  `ADD` and `MUL` update `register[reg_a]` with the unreduced Python
integer sum/product; `CMP` sets `fl` to `0b001`, `0b100` or `0b010`; any other
tag (and the dead branch inside `CMP`) raises the unsupported-operation
exception. -/
def alu (s : CPUState) (op : String) (reg_a reg_b : Int) : Except CpuErr CPUState :=
  if op = "ADD" then
    tryO (pyGet s.register reg_a) fun va =>
    tryO (pyGet s.register reg_b) fun vb =>
    tryO (pySet s.register reg_a (va + vb)) fun r =>
    Except.ok { s with register := r }
  else if op = "MUL" then
    tryO (pyGet s.register reg_a) fun va =>
    tryO (pyGet s.register reg_b) fun vb =>
    tryO (pySet s.register reg_a (va * vb)) fun r =>
    Except.ok { s with register := r }
  else if op = "CMP" then
    tryO (pyGet s.register reg_a) fun va =>
    tryO (pyGet s.register reg_b) fun vb =>
    if va = vb then Except.ok { s with fl := 0b00000001 }
    else if va < vb then Except.ok { s with fl := 0b00000100 }
    else if vb < va then Except.ok { s with fl := 0b00000010 }
    else Except.error CpuErr.unsupportedALU
  else Except.error CpuErr.unsupportedALU

/-- `CPU.push`: decrement `register[7]`, read the source register index from
`memory[pc + 1]`, copy the (post-decrement) value of that register to memory at the
new stack top, advance `pc` by 2.  The `operands` argument is ignored, as in
the source. -/
def push (s : CPUState) (operands : List Int) : Except CpuErr StepOut :=
  tryO (pyGet s.register sp) fun sp0 =>
  tryO (pySet s.register sp (sp0 - 1)) fun r1 =>
  tryO (pyGet s.memory (s.pc + 1)) fun reg_num =>
  tryO (pyGet r1 reg_num) fun reg_value =>
  tryO (pyGet r1 sp) fun sp1 =>
  tryO (pySet s.memory sp1 reg_value) fun m1 =>
  Except.ok ⟨{ s with register := r1, memory := m1, pc := s.pc + 2 }, [], false⟩

/-- `CPU.pop`: read the value at `memory[register[7]]`, store it in the
register named by `memory[pc + 1]`, then increment `register[7]` (as read
after that store) and advance `pc` by 2. -/
def pop (s : CPUState) (operands : List Int) : Except CpuErr StepOut :=
  tryO (pyGet s.register sp) fun sp0 =>
  tryO (pyGet s.memory sp0) fun val =>
  tryO (pyGet s.memory (s.pc + 1)) fun reg_num =>
  tryO (pySet s.register reg_num val) fun r1 =>
  tryO (pyGet r1 sp) fun sp1 =>
  tryO (pySet r1 sp (sp1 + 1)) fun r2 =>
  Except.ok ⟨{ s with register := r2, pc := s.pc + 2 }, [], false⟩

/-- `CPU.handle_hlt`: print `Halted!` and terminate the run. -/
def handle_hlt (s : CPUState) (operands : List Int) : Except CpuErr StepOut :=
  Except.ok ⟨s, ["Halted!"], true⟩

/-- `CPU.handle_ldi`: `register[operands[0]] = operands[1]`, `pc += 3`. -/
def handle_ldi (s : CPUState) (operands : List Int) : Except CpuErr StepOut :=
  tryO (pyGet operands 0) fun reg_num =>
  tryO (pyGet operands 1) fun value =>
  tryO (pySet s.register reg_num value) fun r1 =>
  Except.ok ⟨{ s with register := r1, pc := s.pc + 3 }, [], false⟩

/-- `CPU.handle_prn`: print `register[operands[0]]` in decimal, `pc += 2`. -/
def handle_prn (s : CPUState) (operands : List Int) : Except CpuErr StepOut :=
  tryO (pyGet operands 0) fun reg_num =>
  tryO (pyGet s.register reg_num) fun v =>
  Except.ok ⟨{ s with pc := s.pc + 2 }, [toString v], false⟩

/-- `CPU.handle_mul`: `alu("MUL", operands[0], operands[1])`, `pc += 3`. -/
def handle_mul (s : CPUState) (operands : List Int) : Except CpuErr StepOut :=
  tryO (pyGet operands 0) fun a =>
  tryO (pyGet operands 1) fun b =>
  match alu s "MUL" a b with
  | Except.error e => Except.error e
  | Except.ok s1 => Except.ok ⟨{ s1 with pc := s1.pc + 3 }, [], false⟩

/-- `CPU.handle_add`: `alu("ADD", operands[0], operands[1])`, `pc += 3`. -/
def handle_add (s : CPUState) (operands : List Int) : Except CpuErr StepOut :=
  tryO (pyGet operands 0) fun a =>
  tryO (pyGet operands 1) fun b =>
  match alu s "ADD" a b with
  | Except.error e => Except.error e
  | Except.ok s1 => Except.ok ⟨{ s1 with pc := s1.pc + 3 }, [], false⟩

/-- `CPU.handle_cmp`: `alu("CMP", operands[0], operands[1])`, `pc += 3`. -/
def handle_cmp (s : CPUState) (operands : List Int) : Except CpuErr StepOut :=
  tryO (pyGet operands 0) fun a =>
  tryO (pyGet operands 1) fun b =>
  match alu s "CMP" a b with
  | Except.error e => Except.error e
  | Except.ok s1 => Except.ok ⟨{ s1 with pc := s1.pc + 3 }, [], false⟩

/-- `CPU.call`: decrement `register[7]`, store `pc + 2` at the new stack top,
then read the target register index from `memory[pc + 1]` (after that store)
and set `pc` to the value of that register. -/
def call (s : CPUState) (operands : List Int) : Except CpuErr StepOut :=
  tryO (pyGet s.register sp) fun sp0 =>
  tryO (pySet s.register sp (sp0 - 1)) fun r1 =>
  tryO (pyGet r1 sp) fun sp1 =>
  tryO (pySet s.memory sp1 (s.pc + 2)) fun m1 =>
  tryO (pyGet m1 (s.pc + 1)) fun reg_num =>
  tryO (pyGet r1 reg_num) fun tgt =>
  Except.ok ⟨{ s with register := r1, memory := m1, pc := tgt }, [], false⟩

/-- `CPU.ret`: set `pc` to `memory[register[7]]` and increment `register[7]`. -/
def ret (s : CPUState) (operands : List Int) : Except CpuErr StepOut :=
  tryO (pyGet s.register sp) fun sp0 =>
  tryO (pyGet s.memory sp0) fun addr =>
  tryO (pySet s.register sp (sp0 + 1)) fun r1 =>
  Except.ok ⟨{ s with register := r1, pc := addr }, [], false⟩

/-- `CPU.jmp`: `pc = register[operands[0]]`. -/
def jmp (s : CPUState) (operands : List Int) : Except CpuErr StepOut :=
  tryO (pyGet operands 0) fun r =>
  tryO (pyGet s.register r) fun tgt =>
  Except.ok ⟨{ s with pc := tgt }, [], false⟩

/-- `CPU.jne`: if bit 0 of `fl` is clear, `pc = register[operands[0]]`,
otherwise `pc += 2`.  (Python `fl & 1` is `fl` modulo 2.) -/
def jne (s : CPUState) (operands : List Int) : Except CpuErr StepOut :=
  if s.fl.emod 2 = 0 then
    tryO (pyGet operands 0) fun r =>
    tryO (pyGet s.register r) fun tgt =>
    Except.ok ⟨{ s with pc := tgt }, [], false⟩
  else Except.ok ⟨{ s with pc := s.pc + 2 }, [], false⟩

/-- `CPU.jeq`: if bit 0 of `fl` is set, `pc = register[operands[0]]`,
otherwise `pc += 2`. -/
def jeq (s : CPUState) (operands : List Int) : Except CpuErr StepOut :=
  if s.fl.emod 2 = 1 then
    tryO (pyGet operands 0) fun r =>
    tryO (pyGet s.register r) fun tgt =>
    Except.ok ⟨{ s with pc := tgt }, [], false⟩
  else Except.ok ⟨{ s with pc := s.pc + 2 }, [], false⟩

/-- `operand_count = (ir >> 6) & 0b00000011`: Python arithmetic right shift is
floor division by 64, and masking with `0b11` is reduction modulo 4. -/
def operandCount (ir : Int) : Int := (ir.fdiv 64).emod 4

/-- The operand-fetch loop of `CPU.run`:
`for i in range(1, operand_count + 1): operands.append(self.ram_read(self.pc + i))`.
After `n` iterations the list holds `memory[pc+1], ..., memory[pc+n]` in
address order; a read out of range raises (modelled as `none`). -/
def fetchOperands (s : CPUState) : Nat → Option (List Int)
  | 0 => some []
  | n + 1 =>
    match fetchOperands s n with
    | none => none
    | some ops =>
      match pyGet s.memory (s.pc + ((n : Int) + 1)) with
      | none => none
      | some v => some (ops ++ [v])

/-- The dispatch on `self.branchtable`: each registered opcode invokes its
handler; an unregistered opcode prints `Instruction not found!` and leaves the
state untouched. -/
def execInstr (ir : Int) (s : CPUState) (ops : List Int) : Except CpuErr StepOut :=
  if ir = HLT then handle_hlt s ops
  else if ir = LDI then handle_ldi s ops
  else if ir = PRN then handle_prn s ops
  else if ir = MUL then handle_mul s ops
  else if ir = ADD then handle_add s ops
  else if ir = CMP then handle_cmp s ops
  else if ir = PUSH then push s ops
  else if ir = POP then pop s ops
  else if ir = CALL then call s ops
  else if ir = RET then ret s ops
  else if ir = JMP then jmp s ops
  else if ir = JNE then jne s ops
  else if ir = JEQ then jeq s ops
  else Except.ok ⟨s, ["Instruction not found!"], false⟩

/-- The keys of `self.branchtable` as built in `__init__`. -/
def opcodes : List Int :=
  [HLT, LDI, PRN, MUL, ADD, CMP, PUSH, POP, CALL, RET, JMP, JNE, JEQ]

/-- One iteration of the `while running` loop in `CPU.run`: fetch the
instruction byte at `pc`, fetch its operand bytes, dispatch. -/
def step (s : CPUState) : Except CpuErr StepOut :=
  tryO (pyGet s.memory s.pc) fun ir =>
  tryO (fetchOperands s (operandCount ir).toNat) fun ops =>
  execInstr ir s ops

/-- Two consecutive loop iterations, concatenating their printed output. -/
def run2 (s : CPUState) : Except CpuErr StepOut :=
  match step s with
  | Except.error e => Except.error e
  | Except.ok t1 =>
    match step t1.state with
    | Except.error e => Except.error e
    | Except.ok t2 => Except.ok ⟨t2.state, t1.out ++ t2.out, t2.halted⟩

/-- Bit `k` of an integer, as Python `(x >> k) & 1`. -/
def getBit (x : Int) (k : Nat) : Int := (x.fdiv (2 ^ k)).emod 2

deriving instance DecidableEq for Except

/-! ### Facts about Python-style list indexing -/

theorem pyGet_nonneg (l : List Int) (i : Int) (h : 0 ≤ i) :
    pyGet l i = l.get? i.toNat := by
  simp [pyGet, h]

theorem pyGet_lt_length {l : List Int} {i v : Int} (hi : 0 ≤ i)
    (h : pyGet l i = some v) : i < (l.length : Int) := by
  rw [pyGet_nonneg l i hi] at h
  have hb := (List.get?_eq_some.mp h).fst
  omega

theorem pySet_eq (l : List Int) (i v : Int) (hi : 0 ≤ i)
    (hlt : i < (l.length : Int)) : pySet l i v = some (l.set i.toNat v) := by
  simp only [pySet, if_pos hi]
  rw [if_pos hlt]

theorem pyGet_set_self (l : List Int) (i v : Int) (hi : 0 ≤ i)
    (hlt : i < (l.length : Int)) : pyGet (l.set i.toNat v) i = some v := by
  rw [pyGet_nonneg _ _ hi]
  exact List.get?_set_eq_of_lt v (by omega)

theorem pyGet_set_ne (l : List Int) (i : Int) {j : Int} (v : Int) (hi : 0 ≤ i)
    (hj : 0 ≤ j) (hne : i ≠ j) : pyGet (l.set i.toNat v) j = pyGet l j := by
  rw [pyGet_nonneg (l.set i.toNat v) j hj, pyGet_nonneg l j hj]
  exact List.get?_set_ne v l (by omega)

theorem length_set_int (l : List Int) (i : Nat) (v : Int) :
    ((l.set i v).length : Int) = (l.length : Int) := by
  simp

/-! ### C1: ADD / MUL wraparound -/

/-- Concrete state for the C1 counterexample: `register[0] = 200`,
`register[1] = 100`. -/
def C1state : CPUState := ⟨[200, 100, 0, 0, 0, 0, 0, 244], [], 0, 0⟩

/-- C1, counterexample: executing ADD on registers holding 200 and 100 stores
the unreduced sum 300, not `(200 + 100) mod 256 = 44`; MUL likewise stores
20000, not `(200 * 100) mod 256 = 32`.  The claim that the result is reduced
mod 256 is false of the code. -/
theorem alu_add_mul_mod256_counterexample :
    alu C1state "ADD" 0 1 = Except.ok ⟨[300, 100, 0, 0, 0, 0, 0, 244], [], 0, 0⟩ ∧
    (300 : Int) ≠ (200 + 100) % 256 ∧
    alu C1state "MUL" 0 1 = Except.ok ⟨[20000, 100, 0, 0, 0, 0, 0, 244], [], 0, 0⟩ ∧
    (20000 : Int) ≠ (200 * 100) % 256 := by
  refine ⟨by decide, by decide, by decide, by decide⟩

/-- Evaluation of the ADD branch of the ALU once both register reads are
known. -/
theorem alu_add_eq (s : CPUState) (a b va vb : Int) (ha0 : 0 ≤ a)
    (ha : pyGet s.register a = some va) (hb : pyGet s.register b = some vb) :
    alu s "ADD" a b =
      Except.ok { s with register := s.register.set a.toNat (va + vb) } := by
  have hlt : a < (s.register.length : Int) := pyGet_lt_length ha0 ha
  unfold alu
  rw [if_pos rfl, ha, tryO_some, hb, tryO_some, pySet_eq _ _ _ ha0 hlt,
    tryO_some]

/-- Evaluation of the MUL branch of the ALU once both register reads are
known. -/
theorem alu_mul_eq (s : CPUState) (a b va vb : Int) (ha0 : 0 ≤ a)
    (ha : pyGet s.register a = some va) (hb : pyGet s.register b = some vb) :
    alu s "MUL" a b =
      Except.ok { s with register := s.register.set a.toNat (va * vb) } := by
  have hlt : a < (s.register.length : Int) := pyGet_lt_length ha0 ha
  unfold alu
  rw [if_neg (by decide), if_pos rfl, ha, tryO_some, hb, tryO_some,
    pySet_eq _ _ _ ha0 hlt, tryO_some]

/-- C1, amended: for all register values `va`, `vb` held at valid register
indices `a`, `b`, executing the ADD instruction sets `register[a]` to the
exact integer sum `va + vb`, and MUL sets it to the exact product `va * vb`;
no reduction mod 256 is performed (Python integers do not wrap). -/
theorem alu_add_mul_exact (s : CPUState) (a b va vb : Int)
    (ha0 : 0 ≤ a) (hb0 : 0 ≤ b)
    (ha : pyGet s.register a = some va) (hb : pyGet s.register b = some vb) :
    (∃ s1, alu s "ADD" a b = Except.ok s1 ∧
      pyGet s1.register a = some (va + vb)) ∧
    (∃ s2, alu s "MUL" a b = Except.ok s2 ∧
      pyGet s2.register a = some (va * vb)) := by
  have hlt : a < (s.register.length : Int) := pyGet_lt_length ha0 ha
  exact ⟨⟨_, alu_add_eq s a b va vb ha0 ha hb, pyGet_set_self _ _ _ ha0 hlt⟩,
    ⟨_, alu_mul_eq s a b va vb ha0 ha hb, pyGet_set_self _ _ _ ha0 hlt⟩⟩

/-- C1, witness for the amended theorem at registers 0, 1 of the
counterexample state. -/
theorem alu_add_mul_exact_witness :
    (∃ s1, alu C1state "ADD" 0 1 = Except.ok s1 ∧
      pyGet s1.register 0 = some (200 + 100)) ∧
    (∃ s2, alu C1state "MUL" 0 1 = Except.ok s2 ∧
      pyGet s2.register 0 = some (200 * 100)) :=
  alu_add_mul_exact C1state 0 1 200 100 (by decide) (by decide)
    (by decide) (by decide)

/-! ### C2 and C9: CMP flags and the unsupported-operation error -/

theorem pyGet_is_some (l : List Int) (i : Int) (hi : 0 ≤ i)
    (hlt : i < (l.length : Int)) : ∃ v, pyGet l i = some v := by
  rw [pyGet_nonneg _ _ hi]
  cases h : l.get? i.toNat with
  | some v => exact ⟨v, rfl⟩
  | none =>
    have hn := List.get?_eq_none.mp h
    omega

/-- Evaluation of the CMP branch of the ALU once both register reads are
known. -/
theorem alu_cmp_eq (s : CPUState) (a b va vb : Int)
    (ha : pyGet s.register a = some va) (hb : pyGet s.register b = some vb) :
    alu s "CMP" a b =
      (if va = vb then Except.ok { s with fl := 0b00000001 }
       else if va < vb then Except.ok { s with fl := 0b00000100 }
       else if vb < va then Except.ok { s with fl := 0b00000010 }
       else Except.error CpuErr.unsupportedALU) := by
  unfold alu
  rw [if_neg (by decide), if_neg (by decide), if_pos rfl, ha, tryO_some, hb,
    tryO_some]

/-- C2: for all register values, after CMP exactly one of the flag bits
Equal (bit 0), Greater-than (bit 1), Less-than (bit 2) is set and the other
two are clear; comparing a register with itself always sets the Equal bit. -/
theorem cmp_flags_exclusive (s : CPUState) (a b va vb : Int)
    (ha : pyGet s.register a = some va) (hb : pyGet s.register b = some vb) :
    (∃ s1, alu s "CMP" a b = Except.ok s1 ∧
      ((getBit s1.fl 0 = 1 ∧ getBit s1.fl 1 = 0 ∧ getBit s1.fl 2 = 0) ∨
       (getBit s1.fl 0 = 0 ∧ getBit s1.fl 1 = 1 ∧ getBit s1.fl 2 = 0) ∨
       (getBit s1.fl 0 = 0 ∧ getBit s1.fl 1 = 0 ∧ getBit s1.fl 2 = 1))) ∧
    (∃ s2, alu s "CMP" a a = Except.ok s2 ∧ getBit s2.fl 0 = 1) := by
  have hcmp := alu_cmp_eq s a b va vb ha hb
  have bits1 : getBit (1 : Int) 0 = 1 ∧ getBit (1 : Int) 1 = 0 ∧
      getBit (1 : Int) 2 = 0 := by decide
  have bits2 : getBit (2 : Int) 0 = 0 ∧ getBit (2 : Int) 1 = 1 ∧
      getBit (2 : Int) 2 = 0 := by decide
  have bits4 : getBit (4 : Int) 0 = 0 ∧ getBit (4 : Int) 1 = 0 ∧
      getBit (4 : Int) 2 = 1 := by decide
  constructor
  · by_cases h1 : va = vb
    · exact ⟨{ s with fl := 1 }, by rw [hcmp, if_pos h1], Or.inl bits1⟩
    · by_cases h2 : va < vb
      · refine ⟨{ s with fl := 4 }, by rw [hcmp, if_neg h1, if_pos h2], ?_⟩
        exact Or.inr (Or.inr bits4)
      · have h3 : vb < va := by omega
        refine ⟨{ s with fl := 2 },
          by rw [hcmp, if_neg h1, if_neg h2, if_pos h3], ?_⟩
        exact Or.inr (Or.inl bits2)
  · have hself := alu_cmp_eq s a a va va ha ha
    exact ⟨{ s with fl := 1 }, by rw [hself, if_pos rfl], bits1.1⟩

/-- C2, witness: CMP on registers holding 200 and 100 in the counterexample
state. -/
theorem cmp_flags_exclusive_witness :
    (∃ s1, alu C1state "CMP" 0 1 = Except.ok s1 ∧
      ((getBit s1.fl 0 = 1 ∧ getBit s1.fl 1 = 0 ∧ getBit s1.fl 2 = 0) ∨
       (getBit s1.fl 0 = 0 ∧ getBit s1.fl 1 = 1 ∧ getBit s1.fl 2 = 0) ∨
       (getBit s1.fl 0 = 0 ∧ getBit s1.fl 1 = 0 ∧ getBit s1.fl 2 = 1))) ∧
    (∃ s2, alu C1state "CMP" 0 0 = Except.ok s2 ∧ getBit s2.fl 0 = 1) :=
  cmp_flags_exclusive C1state 0 1 200 100 (by decide) (by decide)

theorem alu_add_ne_unsupported (s : CPUState) (a b : Int) :
    alu s "ADD" a b ≠ Except.error CpuErr.unsupportedALU := by
  unfold alu
  rw [if_pos rfl]
  cases hva : pyGet s.register a with
  | none => simp [tryO]
  | some va =>
    simp only [tryO_some]
    cases hvb : pyGet s.register b with
    | none => simp [tryO]
    | some vb =>
      simp only [tryO_some]
      cases hr : pySet s.register a (va + vb) with
      | none => simp [tryO]
      | some r => simp [tryO]

theorem alu_mul_ne_unsupported (s : CPUState) (a b : Int) :
    alu s "MUL" a b ≠ Except.error CpuErr.unsupportedALU := by
  unfold alu
  rw [if_neg (by decide), if_pos rfl]
  cases hva : pyGet s.register a with
  | none => simp [tryO]
  | some va =>
    simp only [tryO_some]
    cases hvb : pyGet s.register b with
    | none => simp [tryO]
    | some vb =>
      simp only [tryO_some]
      cases hr : pySet s.register a (va * vb) with
      | none => simp [tryO]
      | some r => simp [tryO]

theorem alu_cmp_ne_unsupported (s : CPUState) (a b : Int) :
    alu s "CMP" a b ≠ Except.error CpuErr.unsupportedALU := by
  unfold alu
  rw [if_neg (by decide), if_neg (by decide), if_pos rfl]
  cases hva : pyGet s.register a with
  | none => simp [tryO]
  | some va =>
    cases hvb : pyGet s.register b with
    | none => simp [tryO]
    | some vb =>
      simp only [tryO_some]
      split_ifs with h1 h2 h3 <;> simp
      omega

/-- C9: the ALU raises the unsupported-operation exception exactly when the
operation tag is outside {ADD, MUL, CMP}; for a tag in that set and any two
valid register indices it never raises at all (in particular the dead branch
after the three comparison cases in CMP is unreachable, by trichotomy of
integer comparison). -/
theorem alu_unsupported_iff :
    (∀ (s : CPUState) (a b : Int) (op : String),
      (alu s op a b = Except.error CpuErr.unsupportedALU ↔
        (op ≠ "ADD" ∧ op ≠ "MUL" ∧ op ≠ "CMP"))) ∧
    (∀ (s : CPUState) (a b : Int), 0 ≤ a → 0 ≤ b →
      a < (s.register.length : Int) → b < (s.register.length : Int) →
      (∃ s1, alu s "ADD" a b = Except.ok s1) ∧
      (∃ s2, alu s "MUL" a b = Except.ok s2) ∧
      (∃ s3, alu s "CMP" a b = Except.ok s3)) := by
  constructor
  · intro s a b op
    constructor
    · intro h
      refine ⟨?_, ?_, ?_⟩ <;> intro hop <;> subst hop
      · exact alu_add_ne_unsupported s a b h
      · exact alu_mul_ne_unsupported s a b h
      · exact alu_cmp_ne_unsupported s a b h
    · rintro ⟨h1, h2, h3⟩
      unfold alu
      rw [if_neg h1, if_neg h2, if_neg h3]
  · intro s a b ha0 hb0 halt hblt
    obtain ⟨va, hva⟩ := pyGet_is_some s.register a ha0 halt
    obtain ⟨vb, hvb⟩ := pyGet_is_some s.register b hb0 hblt
    refine ⟨⟨_, alu_add_eq s a b va vb ha0 hva hvb⟩,
      ⟨_, alu_mul_eq s a b va vb ha0 hva hvb⟩, ?_⟩
    have hcmp := alu_cmp_eq s a b va vb hva hvb
    by_cases h1 : va = vb
    · exact ⟨{ s with fl := 1 }, by rw [hcmp, if_pos h1]⟩
    · by_cases h2 : va < vb
      · exact ⟨{ s with fl := 4 }, by rw [hcmp, if_neg h1, if_pos h2]⟩
      · have h3 : vb < va := by omega
        exact ⟨{ s with fl := 2 }, by rw [hcmp, if_neg h1, if_neg h2, if_pos h3]⟩

/-- C9, witness: an unknown tag raises the unsupported-operation error, and
ADD/MUL/CMP at valid indices all succeed, on the counterexample state. -/
theorem alu_unsupported_iff_witness :
    (alu C1state "NOP" 0 1 = Except.error CpuErr.unsupportedALU ↔
      (("NOP" : String) ≠ "ADD" ∧ ("NOP" : String) ≠ "MUL" ∧
        ("NOP" : String) ≠ "CMP")) ∧
    ((∃ s1, alu C1state "ADD" 0 1 = Except.ok s1) ∧
     (∃ s2, alu C1state "MUL" 0 1 = Except.ok s2) ∧
     (∃ s3, alu C1state "CMP" 0 1 = Except.ok s3)) :=
  ⟨alu_unsupported_iff.1 C1state 0 1 "NOP",
   alu_unsupported_iff.2 C1state 0 1 (by decide) (by decide) (by decide)
     (by decide)⟩

/-! ### C4 and C10: stack push / pop -/

/-- Evaluation of `push`: `register[7]` is decremented first, so the value
written at the new stack top is read from the already-updated register file
(hypothesis `hv`). -/
theorem push_eq (s : CPUState) (sp0 rn v : Int) (ops : List Int)
    (h7 : (7 : Int) < (s.register.length : Int))
    (hsp : pyGet s.register 7 = some sp0)
    (hrn : pyGet s.memory (s.pc + 1) = some rn)
    (hv : pyGet (s.register.set (7 : Int).toNat (sp0 - 1)) rn = some v)
    (hlo : 0 ≤ sp0 - 1) (hhi : sp0 - 1 < (s.memory.length : Int)) :
    push s ops = Except.ok
      ⟨{ s with
          register := s.register.set (7 : Int).toNat (sp0 - 1)
          memory := s.memory.set (sp0 - 1).toNat v
          pc := s.pc + 2 }, [], false⟩ := by
  have hset : pySet s.register 7 (sp0 - 1) =
      some (s.register.set (7 : Int).toNat (sp0 - 1)) :=
    pySet_eq _ _ _ (by norm_num) h7
  have hsp1 : pyGet (s.register.set (7 : Int).toNat (sp0 - 1)) 7 =
      some (sp0 - 1) := pyGet_set_self _ _ _ (by norm_num) h7
  have hmset : pySet s.memory (sp0 - 1) v =
      some (s.memory.set (sp0 - 1).toNat v) := pySet_eq _ _ _ hlo hhi
  unfold push sp
  rw [hsp, tryO_some, hset, tryO_some, hrn, tryO_some, hv, tryO_some, hsp1,
    tryO_some, hmset, tryO_some]

/-- Evaluation of `pop`: the value at the stack top goes to the register named
by `memory[pc + 1]`, and `register[7]` is incremented as re-read after that
store (hypothesis `hsp1`). -/
theorem pop_eq (s : CPUState) (sp0 val rn sp1 : Int) (ops : List Int)
    (h7 : (7 : Int) < (s.register.length : Int))
    (hsp : pyGet s.register 7 = some sp0)
    (hval : pyGet s.memory sp0 = some val)
    (hrn : pyGet s.memory (s.pc + 1) = some rn)
    (hrn0 : 0 ≤ rn) (hrnlt : rn < (s.register.length : Int))
    (hsp1 : pyGet (s.register.set rn.toNat val) 7 = some sp1) :
    pop s ops = Except.ok
      ⟨{ s with
          register := (s.register.set rn.toNat val).set (7 : Int).toNat (sp1 + 1)
          pc := s.pc + 2 }, [], false⟩ := by
  have hset : pySet s.register rn val = some (s.register.set rn.toNat val) :=
    pySet_eq _ _ _ hrn0 hrnlt
  have h7b : (7 : Int) < ((s.register.set rn.toNat val).length : Int) := by
    simpa using h7
  have hset2 : pySet (s.register.set rn.toNat val) 7 (sp1 + 1) =
      some ((s.register.set rn.toNat val).set (7 : Int).toNat (sp1 + 1)) :=
    pySet_eq _ _ _ (by norm_num) h7b
  unfold pop sp
  rw [hsp, tryO_some, hval, tryO_some, hrn, tryO_some, hset, tryO_some, hsp1,
    tryO_some, hset2, tryO_some]

/-- C10: when the operand of PUSH names register 7 (the stack pointer itself), the
byte written at the new stack top is the already-decremented stack pointer
`sp0 − 1`, not the pre-push value `sp0`. -/
theorem push_sp_writes_decremented_sp (s : CPUState) (sp0 : Int)
    (hreg : s.register.length = 8)
    (hsp : pyGet s.register 7 = some sp0)
    (hrn : pyGet s.memory (s.pc + 1) = some 7)
    (hlo : 1 ≤ sp0) (hhi : sp0 - 1 < (s.memory.length : Int)) :
    ∃ t, push s [] = Except.ok t ∧
      pyGet t.state.memory (sp0 - 1) = some (sp0 - 1) ∧ sp0 - 1 ≠ sp0 := by
  have h7 : (7 : Int) < (s.register.length : Int) := by rw [hreg]; norm_num
  have hv : pyGet (s.register.set (7 : Int).toNat (sp0 - 1)) 7 =
      some (sp0 - 1) := pyGet_set_self _ _ _ (by norm_num) h7
  refine ⟨_, push_eq s sp0 7 (sp0 - 1) [] h7 hsp hrn hv (by omega) hhi,
    ?_, by omega⟩
  exact pyGet_set_self _ _ _ (by omega) hhi

/-- C10, witness: pushing register 7 from the initial state (SP = 0xf4)
writes 0xf3 at address 0xf3. -/
theorem push_sp_writes_decremented_sp_witness :
    ∃ t, push { initState with memory := initState.memory.set 1 7 } [] =
        Except.ok t ∧
      pyGet t.state.memory (244 - 1) = some (244 - 1) ∧
      (244 : Int) - 1 ≠ 244 :=
  push_sp_writes_decremented_sp _ 244 (by decide) (by decide) (by decide)
    (by decide) (by decide)

/-- Program for the C4 counterexample: `PUSH R0` at address 0, `POP R7` at
address 2. -/
def C4mem : List Int := (((List.replicate 256 0).set 0 69).set 2 70).set 3 7

/-- Initial state for the C4 counterexample: `v = 5` in register 0,
SP = 244. -/
def C4state : CPUState := ⟨[5, 0, 0, 0, 0, 0, 0, 244], C4mem, 0, 0⟩

/-- C4, counterexample: with `r = 0`, `r2 = 7` and `v = 5`, running
`PUSH R0` then `POP R7` leaves register 7 equal to 6 — neither `v = 5`
(refuting the round-trip value claim for `r2 = 7`) nor the pre-push stack
pointer 244 (refuting the SP-restoration claim). -/
theorem push_pop_roundtrip_counterexample :
    run2 C4state =
      Except.ok ⟨⟨[5, 0, 0, 0, 0, 0, 0, 6], C4mem.set 243 5, 4, 0⟩, [], false⟩ ∧
    (6 : Int) ≠ 5 ∧ (6 : Int) ≠ 244 :=
  ⟨by decide, by decide, by decide⟩

/-- C4, amended: for register indices `r`, `r2` in 0–6 (the stack-pointer
register 7 excluded), pushing register `r` holding `v` and then popping into
register `r2` leaves `register[r2] = v` and restores the stack pointer to its
pre-push value — provided the pushed byte (written at `SP − 1`) does not
overwrite the operand byte of the POP instruction at `pc + 3`. -/
theorem push_pop_roundtrip (s : CPUState) (r r2 sp0 v : Int)
    (hreg : s.register.length = 8)
    (hr : 0 ≤ r) (hr7 : r < 7) (hr2 : 0 ≤ r2) (hr27 : r2 < 7)
    (hsp : pyGet s.register 7 = some sp0)
    (hv : pyGet s.register r = some v)
    (hlo : 1 ≤ sp0) (hhi : sp0 - 1 < (s.memory.length : Int))
    (hpc : 0 ≤ s.pc)
    (hop1 : pyGet s.memory (s.pc + 1) = some r)
    (hop2 : pyGet s.memory (s.pc + 3) = some r2)
    (hnoclob : sp0 - 1 ≠ s.pc + 3) :
    ∃ t1 t2, push s [] = Except.ok t1 ∧ pop t1.state [] = Except.ok t2 ∧
      pyGet t2.state.register r2 = some v ∧
      pyGet t2.state.register 7 = some sp0 := by
  have h7 : (7 : Int) < (s.register.length : Int) := by rw [hreg]; norm_num
  have hv1 : pyGet (s.register.set (7 : Int).toNat (sp0 - 1)) r = some v := by
    rw [pyGet_set_ne _ _ _ (by norm_num) hr (by omega)]
    exact hv
  have hpush := push_eq s sp0 r v [] h7 hsp hop1 hv1 (by omega) hhi
  have h7b : (7 : Int) <
      ((s.register.set (7 : Int).toNat (sp0 - 1)).length : Int) := by
    simpa using h7
  have hsp2 : pyGet (s.register.set (7 : Int).toNat (sp0 - 1)) 7 =
      some (sp0 - 1) := pyGet_set_self _ _ _ (by norm_num) h7
  have hval2 : pyGet (s.memory.set (sp0 - 1).toNat v) (sp0 - 1) = some v :=
    pyGet_set_self _ _ _ (by omega) hhi
  have hrn2 : pyGet (s.memory.set (sp0 - 1).toNat v) (s.pc + 2 + 1) =
      some r2 := by
    rw [show s.pc + 2 + 1 = s.pc + 3 by ring,
      pyGet_set_ne _ _ _ (by omega) (by omega) hnoclob]
    exact hop2
  have hrnlt2 : r2 <
      ((s.register.set (7 : Int).toNat (sp0 - 1)).length : Int) := by
    simp only [List.length_set]
    omega
  have hsp3 : pyGet
      ((s.register.set (7 : Int).toNat (sp0 - 1)).set r2.toNat v) 7 =
      some (sp0 - 1) := by
    rw [pyGet_set_ne _ _ _ hr2 (by norm_num) (by omega)]
    exact hsp2
  have hpop := pop_eq
    ⟨s.register.set (7 : Int).toNat (sp0 - 1),
     s.memory.set (sp0 - 1).toNat v, s.pc + 2, s.fl⟩
    (sp0 - 1) v r2 (sp0 - 1) [] h7b hsp2 hval2 hrn2 hr2 hrnlt2 hsp3
  refine ⟨_, _, hpush, hpop, ?_, ?_⟩
  · show pyGet (((s.register.set (7 : Int).toNat (sp0 - 1)).set r2.toNat
        v).set (7 : Int).toNat (sp0 - 1 + 1)) r2 = some v
    rw [pyGet_set_ne _ _ _ (by norm_num) hr2 (by omega)]
    exact pyGet_set_self _ _ _ hr2 hrnlt2
  · show pyGet (((s.register.set (7 : Int).toNat (sp0 - 1)).set r2.toNat
        v).set (7 : Int).toNat (sp0 - 1 + 1)) 7 = some sp0
    rw [show sp0 - 1 + 1 = sp0 by ring]
    refine pyGet_set_self _ _ _ (by norm_num) ?_
    simp only [List.length_set]
    omega

/-- Initial state for the C4 witness: `v = 9` in register 0, the POP operand
byte 1 at address 3. -/
def C4wState : CPUState :=
  ⟨[9, 0, 0, 0, 0, 0, 0, 244], (List.replicate 256 0).set 3 1, 0, 0⟩

/-- C4, witness for the amended round trip with `r = 0`, `r2 = 1`, `v = 9`. -/
theorem push_pop_roundtrip_witness :
    ∃ t1 t2, push C4wState [] = Except.ok t1 ∧ pop t1.state [] = Except.ok t2 ∧
      pyGet t2.state.register 1 = some 9 ∧
      pyGet t2.state.register 7 = some 244 :=
  push_pop_roundtrip C4wState 0 1 244 9 (by decide) (by decide) (by decide)
    (by decide) (by decide) (by decide) (by decide) (by decide) (by decide)
    (by decide) (by decide) (by decide) (by decide)

/-! ### C5: CALL / RET -/

/-- Evaluation of `call`: the return address `pc + 2` is written at the new
stack top before the operand byte is read back from memory (hypothesis `hrn`
is therefore about the updated memory). -/
theorem call_eq (s : CPUState) (sp0 rn tgt : Int) (ops : List Int)
    (h7 : (7 : Int) < (s.register.length : Int))
    (hsp : pyGet s.register 7 = some sp0)
    (hlo : 0 ≤ sp0 - 1) (hhi : sp0 - 1 < (s.memory.length : Int))
    (hrn : pyGet (s.memory.set (sp0 - 1).toNat (s.pc + 2)) (s.pc + 1) =
      some rn)
    (htgt : pyGet (s.register.set (7 : Int).toNat (sp0 - 1)) rn = some tgt) :
    call s ops = Except.ok
      ⟨{ s with
          register := s.register.set (7 : Int).toNat (sp0 - 1)
          memory := s.memory.set (sp0 - 1).toNat (s.pc + 2)
          pc := tgt }, [], false⟩ := by
  have hset : pySet s.register 7 (sp0 - 1) =
      some (s.register.set (7 : Int).toNat (sp0 - 1)) :=
    pySet_eq _ _ _ (by norm_num) h7
  have hsp1 : pyGet (s.register.set (7 : Int).toNat (sp0 - 1)) 7 =
      some (sp0 - 1) := pyGet_set_self _ _ _ (by norm_num) h7
  have hmset : pySet s.memory (sp0 - 1) (s.pc + 2) =
      some (s.memory.set (sp0 - 1).toNat (s.pc + 2)) :=
    pySet_eq _ _ _ hlo hhi
  unfold call sp
  rw [hsp, tryO_some, hset, tryO_some, hsp1, tryO_some, hmset, tryO_some,
    hrn, tryO_some, htgt, tryO_some]

/-- Evaluation of `ret`: `pc` receives the byte at the stack top and
`register[7]` is incremented. -/
theorem ret_eq (s : CPUState) (sp0 addr : Int) (ops : List Int)
    (h7 : (7 : Int) < (s.register.length : Int))
    (hsp : pyGet s.register 7 = some sp0)
    (haddr : pyGet s.memory sp0 = some addr) :
    ret s ops = Except.ok
      ⟨{ s with
          register := s.register.set (7 : Int).toNat (sp0 + 1)
          pc := addr }, [], false⟩ := by
  have hset : pySet s.register 7 (sp0 + 1) =
      some (s.register.set (7 : Int).toNat (sp0 + 1)) :=
    pySet_eq _ _ _ (by norm_num) h7
  unfold ret sp
  rw [hsp, tryO_some, haddr, tryO_some, hset, tryO_some]

/-- C5: `CALL` decrements SP, stores the return address `pc + 2` at the new
stack top `memory[SP]`, and sets `pc` to the value of the target register; a `RET`
executed there sets `pc` back to `(address of the CALL) + 2` and restores SP
to its pre-call value. -/
theorem call_ret_roundtrip (s : CPUState) (sp0 r tgt : Int)
    (hreg : s.register.length = 8)
    (hsp : pyGet s.register 7 = some sp0)
    (hlo : 1 ≤ sp0) (hhi : sp0 - 1 < (s.memory.length : Int))
    (hpc : 0 ≤ s.pc)
    (hnoclob : sp0 - 1 ≠ s.pc + 1)
    (hop : pyGet s.memory (s.pc + 1) = some r)
    (hr : 0 ≤ r) (hr7 : r < 7)
    (htgt : pyGet s.register r = some tgt) :
    ∃ t1, call s [] = Except.ok t1 ∧
      pyGet t1.state.register 7 = some (sp0 - 1) ∧
      pyGet t1.state.memory (sp0 - 1) = some (s.pc + 2) ∧
      t1.state.pc = tgt ∧
      ∃ t2, ret t1.state [] = Except.ok t2 ∧
        t2.state.pc = s.pc + 2 ∧
        pyGet t2.state.register 7 = some sp0 := by
  have h7 : (7 : Int) < (s.register.length : Int) := by rw [hreg]; norm_num
  have hrn : pyGet (s.memory.set (sp0 - 1).toNat (s.pc + 2)) (s.pc + 1) =
      some r := by
    rw [pyGet_set_ne _ _ _ (by omega) (by omega) hnoclob]
    exact hop
  have htgt1 : pyGet (s.register.set (7 : Int).toNat (sp0 - 1)) r =
      some tgt := by
    rw [pyGet_set_ne _ _ _ (by norm_num) hr (by omega)]
    exact htgt
  have hcall := call_eq s sp0 r tgt [] h7 hsp (by omega) hhi hrn htgt1
  have h7b : (7 : Int) <
      ((s.register.set (7 : Int).toNat (sp0 - 1)).length : Int) := by
    simpa using h7
  have hsp1 : pyGet (s.register.set (7 : Int).toNat (sp0 - 1)) 7 =
      some (sp0 - 1) := pyGet_set_self _ _ _ (by norm_num) h7
  have haddr : pyGet (s.memory.set (sp0 - 1).toNat (s.pc + 2)) (sp0 - 1) =
      some (s.pc + 2) := pyGet_set_self _ _ _ (by omega) hhi
  have hret := ret_eq
    ⟨s.register.set (7 : Int).toNat (sp0 - 1),
     s.memory.set (sp0 - 1).toNat (s.pc + 2), tgt, s.fl⟩
    (sp0 - 1) (s.pc + 2) [] h7b hsp1 haddr
  refine ⟨_, hcall, hsp1, haddr, rfl, _, hret, rfl, ?_⟩
  show pyGet ((s.register.set (7 : Int).toNat (sp0 - 1)).set
      (7 : Int).toNat (sp0 - 1 + 1)) 7 = some sp0
  rw [show sp0 - 1 + 1 = sp0 by ring]
  refine pyGet_set_self _ _ _ (by norm_num) ?_
  simp only [List.length_set]
  omega

/-- Initial state for the C5 witness: `CALL R1` at address 0, target 10 in
register 1, SP = 244. -/
def C5wState : CPUState :=
  ⟨[0, 10, 0, 0, 0, 0, 0, 244], (List.replicate 256 0).set 1 1, 0, 0⟩

/-- C5, witness: calling through register 1 (target 10) and returning. -/
theorem call_ret_roundtrip_witness :
    ∃ t1, call C5wState [] = Except.ok t1 ∧
      pyGet t1.state.register 7 = some (244 - 1) ∧
      pyGet t1.state.memory (244 - 1) = some (C5wState.pc + 2) ∧
      t1.state.pc = 10 ∧
      ∃ t2, ret t1.state [] = Except.ok t2 ∧
        t2.state.pc = C5wState.pc + 2 ∧
        pyGet t2.state.register 7 = some 244 :=
  call_ret_roundtrip C5wState 244 1 10 (by decide) (by decide) (by decide)
    (by decide) (by decide) (by decide) (by decide) (by decide) (by decide)
    (by decide)

/-! ### C7: conditional jumps -/

theorem pyGet_single_zero (a : Int) : pyGet [a] 0 = some a := rfl

theorem pyGet_pair_zero (a b : Int) : pyGet [a, b] 0 = some a := rfl

theorem pyGet_pair_one (a b : Int) : pyGet [a, b] 1 = some b := rfl

theorem getBit_zero (x : Int) : getBit x 0 = x.emod 2 := by
  simp [getBit]

/-- C7: with the Equal flag (bit 0 of FL) set, `JEQ r` jumps to `register[r]`
while `JNE r` advances `pc` by 2; with the Equal flag clear, `JNE r` jumps to
`register[r]` while `JEQ r` advances `pc` by 2. -/
theorem jeq_jne_equal_flag (s : CPUState) (r tgt : Int)
    (htgt : pyGet s.register r = some tgt) :
    (getBit s.fl 0 = 1 →
      jeq s [r] = Except.ok ⟨{ s with pc := tgt }, [], false⟩ ∧
      jne s [r] = Except.ok ⟨{ s with pc := s.pc + 2 }, [], false⟩) ∧
    (getBit s.fl 0 = 0 →
      jne s [r] = Except.ok ⟨{ s with pc := tgt }, [], false⟩ ∧
      jeq s [r] = Except.ok ⟨{ s with pc := s.pc + 2 }, [], false⟩) := by
  rw [getBit_zero]
  constructor
  · intro hm
    constructor
    · unfold jeq
      rw [if_pos hm, pyGet_single_zero, tryO_some, htgt, tryO_some]
    · unfold jne
      rw [if_neg (by omega)]
  · intro hm
    constructor
    · unfold jne
      rw [if_pos hm, pyGet_single_zero, tryO_some, htgt, tryO_some]
    · unfold jeq
      rw [if_neg (by omega)]

/-- C7, witness: jumping through register 1 (target 10) of `C5wState`, whose
Equal flag is clear. -/
theorem jeq_jne_equal_flag_witness :
    (getBit C5wState.fl 0 = 1 →
      jeq C5wState [1] = Except.ok ⟨{ C5wState with pc := 10 }, [], false⟩ ∧
      jne C5wState [1] =
        Except.ok ⟨{ C5wState with pc := C5wState.pc + 2 }, [], false⟩) ∧
    (getBit C5wState.fl 0 = 0 →
      jne C5wState [1] = Except.ok ⟨{ C5wState with pc := 10 }, [], false⟩ ∧
      jeq C5wState [1] =
        Except.ok ⟨{ C5wState with pc := C5wState.pc + 2 }, [], false⟩) :=
  jeq_jne_equal_flag C5wState 1 10 (by decide)

/-! ### C3 and C6: the fetch-decode-dispatch loop -/

theorem step_eq (s : CPUState) (ir : Int) (ops : List Int)
    (hir : pyGet s.memory s.pc = some ir)
    (hops : fetchOperands s (operandCount ir).toNat = some ops) :
    step s = execInstr ir s ops := by
  unfold step
  rw [hir, tryO_some, hops, tryO_some]

theorem fetchOperands_succ (s : CPUState) (n : Nat) :
    fetchOperands s (n + 1) =
      match fetchOperands s n with
      | none => none
      | some ops =>
        match pyGet s.memory (s.pc + ((n : Int) + 1)) with
        | none => none
        | some v => some (ops ++ [v]) := rfl

theorem fetchOperands_length (s : CPUState) :
    ∀ (n : Nat) (ops : List Int), fetchOperands s n = some ops →
      ops.length = n := by
  intro n
  induction n with
  | zero =>
    intro ops h
    simp only [fetchOperands, Option.some.injEq] at h
    rw [← h]
    rfl
  | succ n ih =>
    intro ops h
    rw [fetchOperands_succ] at h
    cases h0 : fetchOperands s n with
    | none => rw [h0] at h; exact absurd h (by simp)
    | some ops0 =>
      rw [h0] at h
      cases h1 : pyGet s.memory (s.pc + ((n : Int) + 1)) with
      | none => rw [h1] at h; exact absurd h (by simp)
      | some v =>
        rw [h1] at h
        have heq : ops0 ++ [v] = ops := by simpa using h
        rw [← heq, List.length_append, ih ops0 h0]
        simp

theorem fetchOperands_get (s : CPUState) :
    ∀ (n : Nat) (ops : List Int), fetchOperands s n = some ops →
      ∀ i : Nat, i < n → ops.get? i = pyGet s.memory (s.pc + 1 + i) := by
  intro n
  induction n with
  | zero => intro ops h i hi; omega
  | succ n ih =>
    intro ops h i hi
    rw [fetchOperands_succ] at h
    cases h0 : fetchOperands s n with
    | none => rw [h0] at h; exact absurd h (by simp)
    | some ops0 =>
      rw [h0] at h
      cases h1 : pyGet s.memory (s.pc + ((n : Int) + 1)) with
      | none => rw [h1] at h; exact absurd h (by simp)
      | some v =>
        rw [h1] at h
        have heq : ops0 ++ [v] = ops := by simpa using h
        have hlen : ops0.length = n := fetchOperands_length s n ops0 h0
        rw [← heq]
        by_cases hin : i < n
        · rw [List.get?_append (by omega)]
          exact ih ops0 h0 i hin
        · have hieq : i = n := by omega
          rw [show i = ops0.length by omega, List.get?_concat_length]
          rw [show s.pc + 1 + (ops0.length : Int) = s.pc + ((n : Int) + 1) by
            rw [hlen]; ring]
          exact h1.symm

/-- C3: when the fetched instruction byte has no handler in the dispatch
table, the step reports `Instruction not found!`, leaves the whole state
(PC, registers, flags, memory) unchanged, and does not halt the loop. -/
theorem unrecognized_opcode_noop (s : CPUState) (ir : Int) (ops : List Int)
    (hir : pyGet s.memory s.pc = some ir)
    (hops : fetchOperands s (operandCount ir).toNat = some ops)
    (hnot : ir ∉ opcodes) :
    step s = Except.ok ⟨s, ["Instruction not found!"], false⟩ := by
  rw [step_eq s ir ops hir hops]
  simp only [opcodes, List.mem_cons, List.not_mem_nil, or_false, not_or]
    at hnot
  obtain ⟨h1, h2, h3, h4, h5, h6, h7, h8, h9, h10, h11, h12, h13⟩ := hnot
  unfold execInstr
  rw [if_neg h1, if_neg h2, if_neg h3, if_neg h4, if_neg h5, if_neg h6,
    if_neg h7, if_neg h8, if_neg h9, if_neg h10, if_neg h11, if_neg h12,
    if_neg h13]

/-- C3, witness: the zeroed initial state fetches opcode 0, which has no
handler. -/
theorem unrecognized_opcode_noop_witness :
    step initState = Except.ok ⟨initState, ["Instruction not found!"], false⟩ :=
  unrecognized_opcode_noop initState 0 [] (by decide) (by decide) (by decide)

/-- C6: on every loop iteration the operand count is bits 6–7 of the fetched
opcode byte as a 2-bit unsigned integer, and exactly that many bytes are read
from `memory[pc+1], memory[pc+2]` in address order and passed as the operand
list to the dispatched handler. -/
theorem operand_fetch_contract (s : CPUState) (ir : Int) (ops : List Int)
    (hir : pyGet s.memory s.pc = some ir)
    (hops : fetchOperands s (operandCount ir).toNat = some ops) :
    operandCount ir = (ir.fdiv (2 ^ 6)).emod (2 ^ 2) ∧
    ops.length = (operandCount ir).toNat ∧
    (∀ i : Nat, i < ops.length →
      ops.get? i = pyGet s.memory (s.pc + 1 + i)) ∧
    step s = execInstr ir s ops := by
  have hlen := fetchOperands_length s _ ops hops
  refine ⟨by norm_num [operandCount], hlen, ?_, step_eq s ir ops hir hops⟩
  intro i hi
  exact fetchOperands_get s _ ops hops i (by omega)

/-- Initial state for the C6 witness: a two-operand opcode (LDI = 130) at
address 0 with operand bytes 5 and 9. -/
def C6wState : CPUState :=
  ⟨List.replicate 8 0, (((List.replicate 256 0).set 0 130).set 1 5).set 2 9,
   0, 0⟩

/-- C6, witness: opcode 130 has operand count 2 and the operand list is the
two following bytes. -/
theorem operand_fetch_contract_witness :
    operandCount 130 = ((130 : Int).fdiv (2 ^ 6)).emod (2 ^ 2) ∧
    ([5, 9] : List Int).length = (operandCount 130).toNat ∧
    (∀ i : Nat, i < ([5, 9] : List Int).length →
      ([5, 9] : List Int).get? i = pyGet C6wState.memory (C6wState.pc + 1 + i)) ∧
    step C6wState = execInstr 130 C6wState [5, 9] :=
  operand_fetch_contract C6wState 130 [5, 9] (by decide) (by decide)

/-! ### C8: LDI followed by PRN -/

theorem fetchOperands_one (s : CPUState) (v1 : Int)
    (h1 : pyGet s.memory (s.pc + 1) = some v1) :
    fetchOperands s 1 = some [v1] := by
  have h := fetchOperands_succ s 0
  rw [show fetchOperands s 0 = some [] from rfl] at h
  simp only [show s.pc + (((0 : Nat) : Int) + 1) = s.pc + 1 by norm_num, h1]
    at h
  simpa using h

theorem fetchOperands_two (s : CPUState) (v1 v2 : Int)
    (h1 : pyGet s.memory (s.pc + 1) = some v1)
    (h2 : pyGet s.memory (s.pc + 2) = some v2) :
    fetchOperands s 2 = some [v1, v2] := by
  have h := fetchOperands_succ s 1
  rw [fetchOperands_one s v1 h1] at h
  simp only [show s.pc + (((1 : Nat) : Int) + 1) = s.pc + 2 by norm_num, h2]
    at h
  simpa using h

/-- C8: executing `LDI reg imm8` and then `PRN reg` prints exactly `imm8` (as
decimal text) and leaves `pc` five bytes past its pre-LDI value. -/
theorem ldi_prn_emits_imm (s : CPUState) (reg imm8 : Int)
    (hreg : s.register.length = 8)
    (hr0 : 0 ≤ reg) (hr8 : reg < 8)
    (him0 : 0 ≤ imm8) (him : imm8 < 256)
    (h0 : pyGet s.memory s.pc = some 130)
    (h1 : pyGet s.memory (s.pc + 1) = some reg)
    (h2 : pyGet s.memory (s.pc + 2) = some imm8)
    (h3 : pyGet s.memory (s.pc + 3) = some 71)
    (h4 : pyGet s.memory (s.pc + 4) = some reg) :
    ∃ t1 t2, step s = Except.ok t1 ∧ t1.out = [] ∧ t1.halted = false ∧
      step t1.state = Except.ok t2 ∧ t2.out = [toString imm8] ∧
      t2.state.pc = s.pc + 5 := by
  have hrlt : reg < (s.register.length : Int) := by
    rw [hreg]; exact_mod_cast hr8
  have hf2 : fetchOperands s 2 = some [reg, imm8] :=
    fetchOperands_two s reg imm8 h1 h2
  have hstep1 : step s = execInstr 130 s [reg, imm8] :=
    step_eq s 130 [reg, imm8] h0
      (by rw [show (operandCount 130).toNat = 2 from by decide]; exact hf2)
  have hld : execInstr 130 s [reg, imm8] = handle_ldi s [reg, imm8] := by
    unfold execInstr
    rw [if_neg (by decide), if_pos (by decide)]
  have hldi : handle_ldi s [reg, imm8] = Except.ok
      ⟨⟨s.register.set reg.toNat imm8, s.memory, s.pc + 3, s.fl⟩, [],
        false⟩ := by
    unfold handle_ldi
    rw [pyGet_pair_zero, tryO_some, pyGet_pair_one, tryO_some,
      pySet_eq _ _ _ hr0 hrlt, tryO_some]
  have h4b : pyGet s.memory (s.pc + 3 + 1) = some reg := by
    rw [show s.pc + 3 + 1 = s.pc + 4 by ring]
    exact h4
  have hf1 : fetchOperands
      ⟨s.register.set reg.toNat imm8, s.memory, s.pc + 3, s.fl⟩ 1 =
      some [reg] :=
    fetchOperands_one ⟨s.register.set reg.toNat imm8, s.memory, s.pc + 3,
      s.fl⟩ reg h4b
  have hstep2 : step ⟨s.register.set reg.toNat imm8, s.memory, s.pc + 3,
      s.fl⟩ = execInstr 71
      ⟨s.register.set reg.toNat imm8, s.memory, s.pc + 3, s.fl⟩ [reg] :=
    step_eq _ 71 [reg] h3
      (by rw [show (operandCount 71).toNat = 1 from by decide]; exact hf1)
  have hpr : execInstr 71
      ⟨s.register.set reg.toNat imm8, s.memory, s.pc + 3, s.fl⟩ [reg] =
      handle_prn ⟨s.register.set reg.toNat imm8, s.memory, s.pc + 3, s.fl⟩
        [reg] := by
    unfold execInstr
    rw [if_neg (by decide), if_neg (by decide), if_pos (by decide)]
  have hgetreg : pyGet (s.register.set reg.toNat imm8) reg = some imm8 :=
    pyGet_set_self _ _ _ hr0 hrlt
  have hprn : handle_prn ⟨s.register.set reg.toNat imm8, s.memory, s.pc + 3,
      s.fl⟩ [reg] = Except.ok
      ⟨⟨s.register.set reg.toNat imm8, s.memory, s.pc + 3 + 2, s.fl⟩,
        [toString imm8], false⟩ := by
    unfold handle_prn
    rw [pyGet_single_zero, tryO_some, hgetreg, tryO_some]
  refine ⟨⟨⟨s.register.set reg.toNat imm8, s.memory, s.pc + 3, s.fl⟩, [],
      false⟩,
    ⟨⟨s.register.set reg.toNat imm8, s.memory, s.pc + 3 + 2, s.fl⟩,
      [toString imm8], false⟩, ?_, rfl, rfl, ?_, rfl, ?_⟩
  · rw [hstep1, hld, hldi]
  · rw [hstep2, hpr, hprn]
  · show s.pc + 3 + 2 = s.pc + 5
    ring

/-- Initial state for the C8 witness: `LDI R2 42` at address 0 and `PRN R2`
at address 3. -/
def C8wState : CPUState :=
  ⟨List.replicate 8 0,
   ((((List.replicate 256 0).set 0 130).set 1 2).set 2 42).set 3 71 |>.set 4 2,
   0, 0⟩

/-- C8, witness: `LDI R2 42; PRN R2` prints `42` and ends with `pc = 5`. -/
theorem ldi_prn_emits_imm_witness :
    ∃ t1 t2, step C8wState = Except.ok t1 ∧ t1.out = [] ∧
      t1.halted = false ∧ step t1.state = Except.ok t2 ∧
      t2.out = [toString (42 : Int)] ∧ t2.state.pc = C8wState.pc + 5 :=
  ldi_prn_emits_imm C8wState 2 42 (by decide) (by decide) (by decide)
    (by decide) (by decide) (by decide) (by decide) (by decide) (by decide)
    (by decide)

end LS8
